import Mathlib

/-!
Shallow embedding of the GrammarGuard client core (request coordinator,
retry policy, durable state store, activity aggregator), translated from
src/App.tsx, src/components/InteractiveText.tsx (storage + gemini service
section) and src/unnamed/part_002 (Profile / activity calendar), together
with theorems settling the frozen specification claims.

Conventions of the embedding:
- localStorage is modelled as a record `Store` with one typed field per
  storage key (grammarguard_history, grammarguard_app_state,
  grammarguard_api_key, grammarguard_version, grammarguard_theme,
  grammarguard_color_scheme); JSON (de)serialisation of well-formed
  records is abstracted away, a record is the parsed value.
- Date.now() and crypto.randomUUID() are nondeterministic inputs and are
  passed as explicit parameters (`now`, `newId`).
- JS string falsiness: the empty string is the falsy string value.
- Array.prototype.sort is stable (ECMAScript requirement); it is modelled
  by a stable insertion sort on the comparator's induced relation.
-/

/-- The three history entry categories (field `type` of HistoryEntry in
src/unnamed/part_000).  The field is optional in the source: entries
written by old versions carry no type and are treated as grammar entries
by every consumer (`h.type === 'grammar' || !h.type`). -/
inductive EntryType
  | grammar
  | rewrite
  | dictionary
deriving DecidableEq, Repr

/-- HistoryEntry from src/unnamed/part_000.  `type = none` models a
missing (legacy) type field; an empty `id` models a falsy id. -/
structure HistoryEntry where
  id : String
  timestamp : Nat
  textSnippet : String
  fullText : String
  errorCount : Nat
  suggestionCount : Nat
  isPerfect : Bool
  type : Option EntryType
  rewriteStyle : Option String
deriving DecidableEq, Repr

/-- Severity of a grammar segment (src/unnamed/part_000). -/
inductive Severity
  | critical
  | suggestion
deriving DecidableEq, Repr

/-- One segment of a grammar analysis (correction/reason fields are not
read by the core and are omitted). -/
structure Segment where
  text : String
  isError : Bool
  severity : Option Severity
deriving DecidableEq, Repr

/-- GrammarAnalysis, restricted to the fields the core reads. -/
structure GrammarAnalysis where
  segments : List Segment
  correctedSentence : String
deriving DecidableEq, Repr

/-- RewriteAnalysis, restricted to the fields the core reads. -/
structure RewriteAnalysis where
  originalText : String
  rewrittenText : String
  style : String
deriving DecidableEq, Repr

/-- The ephemeral app snapshot saved under grammarguard_app_state. -/
structure AppSnapshot where
  inputText : String
  grammarResult : Option GrammarAnalysis
  rewriteResult : Option RewriteAnalysis
  colorScheme : String
deriving DecidableEq, Repr

/-- The localStorage contents relevant to the store: one typed field per
storage key; `none` models an absent key. -/
structure Store where
  history : List HistoryEntry
  appState : Option AppSnapshot
  apiKey : Option String
  version : Option String
  theme : Option String
  colorScheme : Option String
deriving DecidableEq, Repr

/-- Must match package.json version to trigger migrations/clearing
(InteractiveText.tsx line 100). -/
def CURRENT_VERSION : String := "1.0.3"

/-- The snippet computation shared by saveHistory and saveRewriteHistory:
content.length > 60 ? content.substring(0, 60) + '...' : content. -/
def mkSnippet (content : String) : String :=
  if content.length > 60 then String.mk (content.toList.take 60) ++ "..." else content

/-- saveHistory (InteractiveText.tsx lines 111-137): counts critical and
suggestion segments, snips the corrected sentence (falling back to the
input text when it is empty, JS ||), and prepends a grammar entry. -/
def saveHistory (text : String) (analysis : GrammarAnalysis)
    (newId : String) (now : Nat) (s : Store) : Store :=
  let errorCount := (analysis.segments.filter
    (fun seg => seg.isError && (seg.severity = some Severity.critical || seg.severity = none))).length
  let suggestionCount := (analysis.segments.filter
    (fun seg => seg.isError && seg.severity = some Severity.suggestion)).length
  let content := if analysis.correctedSentence = "" then text else analysis.correctedSentence
  let newEntry : HistoryEntry :=
    { id := newId
      timestamp := now
      textSnippet := mkSnippet content
      fullText := content
      errorCount := errorCount
      suggestionCount := suggestionCount
      isPerfect := errorCount = 0 && suggestionCount = 0
      type := some EntryType.grammar
      rewriteStyle := none }
  { s with history := newEntry :: s.history }

/-- saveRewriteHistory (InteractiveText.tsx lines 139-161). -/
def saveRewriteHistory (analysis : RewriteAnalysis)
    (newId : String) (now : Nat) (s : Store) : Store :=
  let content := analysis.rewrittenText
  let newEntry : HistoryEntry :=
    { id := newId
      timestamp := now
      textSnippet := mkSnippet content
      fullText := content
      errorCount := 0
      suggestionCount := 0
      isPerfect := true
      type := some EntryType.rewrite
      rewriteStyle := some analysis.style }
  { s with history := newEntry :: s.history }

/-- saveDictionaryHistory (InteractiveText.tsx lines 163-183): the term is
stored as the snippet unmodified. -/
def saveDictionaryHistory (term : String) (newId : String) (now : Nat) (s : Store) : Store :=
  let newEntry : HistoryEntry :=
    { id := newId
      timestamp := now
      textSnippet := term
      fullText := term
      errorCount := 0
      suggestionCount := 0
      isPerfect := true
      type := some EntryType.dictionary
      rewriteStyle := none }
  { s with history := newEntry :: s.history }

/-- getHistory (InteractiveText.tsx lines 185-193). -/
def getHistory (s : Store) : List HistoryEntry := s.history

/-- User statistics record (src/unnamed/part_000). -/
structure UserStats where
  totalChecks : Nat
  totalErrors : Nat
  accuracyRate : Nat
  perfectRuns : Nat
deriving DecidableEq, Repr

/-- Math.round((perfectRuns / totalChecks) * 100) for naturals p <= t:
Math.round rounds half toward positive infinity, so this is the rational
round of 100 p / t.  The exact rational value is used; for every history
size a double has more than enough precision for the two computations to
agree. -/
def jsRoundPct (p t : Nat) : Nat := (round (((p : ℚ) / (t : ℚ)) * 100)).toNat

/-- The grammar-category filter h.type === 'grammar' || !h.type used by
getStats (line 203): a missing type marks a legacy grammar entry. -/
def isGrammarEntry (h : HistoryEntry) : Bool :=
  h.type = some EntryType.grammar || h.type = none

/-- getStats (InteractiveText.tsx lines 199-225): statistics over the
grammar entries (entries whose type is grammar or missing). -/
def getStats (s : Store) : UserStats :=
  let grammarHistory := (getHistory s).filter isGrammarEntry
  let totalChecks := grammarHistory.length
  if totalChecks = 0 then
    { totalChecks := 0, totalErrors := 0, accuracyRate := 0, perfectRuns := 0 }
  else
    let totalErrors := (grammarHistory.map (fun h => h.errorCount)).sum
    let perfectRuns := (grammarHistory.filter (fun h => h.isPerfect)).length
    { totalChecks := totalChecks
      totalErrors := totalErrors
      accuracyRate := jsRoundPct perfectRuns totalChecks
      perfectRuns := perfectRuns }

/-- The comparator (a, b) => b.timestamp - a.timestamp orders entries by
timestamp descending; as a relation, a may stay before b when
b.timestamp <= a.timestamp. -/
def tsGE (a b : HistoryEntry) : Prop := b.timestamp ≤ a.timestamp

instance : DecidableRel tsGE := fun a b => inferInstanceAs (Decidable (b.timestamp ≤ a.timestamp))

instance : IsTotal HistoryEntry tsGE := ⟨fun a b => Nat.le_total b.timestamp a.timestamp⟩

instance : IsTrans HistoryEntry tsGE := ⟨fun _ _ _ hab hbc => Nat.le_trans hbc hab⟩

/-- .sort((a, b) => b.timestamp - a.timestamp): stable sort by timestamp
descending, modelled by stable insertion sort. -/
def sortByTimestampDesc (l : List HistoryEntry) : List HistoryEntry :=
  List.insertionSort tsGE l

/-- The export bundle built by exportHistoryJSON (InteractiveText.tsx
lines 227-248): full history, theme, color scheme and version tag. -/
structure ExportBundle where
  history : List HistoryEntry
  theme : Option String
  colorScheme : Option String
  version : String
deriving DecidableEq, Repr

/-- exportHistoryJSON, restricted to the bundle it serialises (the file
download mechanics are rendering). -/
def exportHistoryJSON (s : Store) : ExportBundle :=
  { history := s.history
    theme := s.theme
    colorScheme := s.colorScheme
    version := CURRENT_VERSION }

/-- The outcome of JSON.parse on an imported file, classified the way
importHistoryJSON inspects it:
- unparseable: JSON.parse (or reading) threw;
- arr: the parsed value is an array (legacy format);
- bundle: an object whose history field is an array (new format), with
  its theme/colorScheme fields (absent fields are none);
- malformed: any other parsed value (object without a history array,
  string, number, boolean, null). -/
inductive ImportJson
  | unparseable
  | arr (entries : List HistoryEntry)
  | bundle (history : List HistoryEntry) (theme colorScheme : Option String)
  | malformed
deriving DecidableEq

/-- The value importHistoryJSON resolves with. -/
structure ImportResult where
  success : Bool
  theme : Option String
  colorScheme : Option String
deriving DecidableEq, Repr

/-- The merge performed by importHistoryJSON (InteractiveText.tsx lines
275-284): keep incoming entries with a truthy id not already present,
then stable-sort the union by timestamp descending. -/
def mergeImport (historyToMerge : List HistoryEntry) (theme colorScheme : Option String)
    (s : Store) : ImportResult × Store :=
  let current := getHistory s
  let currentIds := current.map (fun x => x.id)
  let newEntries := historyToMerge.filter (fun x => !(x.id = "") && !(currentIds.contains x.id))
  let merged := sortByTimestampDesc (newEntries ++ current)
  ({ success := true, theme := theme, colorScheme := colorScheme },
   { s with history := merged })

/-- importHistoryJSON (InteractiveText.tsx lines 250-293). -/
def importHistoryJSON (input : ImportJson) (s : Store) : ImportResult × Store :=
  match input with
  | ImportJson.unparseable => ({ success := false, theme := none, colorScheme := none }, s)
  | ImportJson.malformed => ({ success := false, theme := none, colorScheme := none }, s)
  | ImportJson.arr entries => mergeImport entries none none s
  | ImportJson.bundle history theme colorScheme => mergeImport history theme colorScheme s

/-- Re-parsing the file exportHistoryJSON wrote yields the new-format
bundle with the exported fields. -/
def parseExport (b : ExportBundle) : ImportJson :=
  ImportJson.bundle b.history b.theme b.colorScheme

/-- saveAppState (InteractiveText.tsx lines 295-301). -/
def saveAppState (state : AppSnapshot) (s : Store) : Store :=
  { s with appState := some state }

/-- getAppState (InteractiveText.tsx lines 303-321): on a version-tag
mismatch, remove only the snapshot record, advance the tag and return
null; otherwise return the stored snapshot. -/
def getAppState (s : Store) : Option AppSnapshot × Store :=
  if s.version ≠ some CURRENT_VERSION then
    (none, { s with appState := none, version := some CURRENT_VERSION })
  else
    (s.appState, s)

/-- saveApiKey (InteractiveText.tsx lines 323-329). -/
def saveApiKey (key : String) (s : Store) : Store := { s with apiKey := some key }

/-- getStoredApiKey (InteractiveText.tsx lines 331-338). -/
def getStoredApiKey (s : Store) : Option String := s.apiKey

/-- removeApiKey (InteractiveText.tsx lines 340-346). -/
def removeApiKey (s : Store) : Store := { s with apiKey := none }

/-- JS String.prototype.includes helper: does pat occur at the head of s. -/
def matchHere : List Char → List Char → Bool
  | [], _ => true
  | _ :: _, [] => false
  | p :: ps, c :: cs => p = c && matchHere ps cs

/-- JS String.prototype.includes helper: does pat occur anywhere in s. -/
def findSub (pat : List Char) : List Char → Bool
  | [] => matchHere pat []
  | c :: cs => matchHere pat (c :: cs) || findSub pat cs

/-- msg.includes(pat) on JS strings. -/
def strIncludes (s pat : String) : Bool := findSub pat.toList s.toList

/-- A thrown JS error, abstracted to the pieces retryWithBackoff reads.
The four fields model the four contributions the catch block concatenates
into msg: error?.message, JSON.stringify(error.error) when error.error is
truthy (else the empty string), JSON.stringify(error) when error is an
object and stringification succeeds (else empty), and error?.toString().
A new Error(m) has message m. -/
structure JsError where
  message : String
  errorJson : String
  selfJson : String
  toStr : String
deriving DecidableEq, Repr

/-- The msg assembled by the catch block of retryWithBackoff
(InteractiveText.tsx lines 382-397). -/
def extractMsg (e : JsError) : String :=
  e.message ++ e.errorJson ++ e.selfJson ++ e.toStr

/-- msg.includes('MISSING_API_KEY') (line 400). -/
def isMissingKey (msg : String) : Bool := strIncludes msg "MISSING_API_KEY"

/-- The permission-denied test (line 405). -/
def isPermDenied (msg : String) : Bool :=
  strIncludes msg "PERMISSION_DENIED" || strIncludes msg "403" ||
    strIncludes msg "Permission denied"

/-- The rate-limit test (line 410). -/
def isRateLimit (msg : String) : Bool :=
  strIncludes msg "429" || strIncludes msg "RESOURCE_EXHAUSTED" || strIncludes msg "Quota"

/-- The server-overload test (line 411). -/
def isServerOverload (msg : String) : Bool :=
  strIncludes msg "503" || strIncludes msg "Overloaded"

/-- An error on which retryWithBackoff retries: not the missing-key or
permission-denied kinds (checked first), and rate-limited or overloaded. -/
def isRetryableErr (e : JsError) : Bool :=
  let msg := extractMsg e
  !(isMissingKey msg) && !(isPermDenied msg) && (isRateLimit msg || isServerOverload msg)

/-- The error thrown by new Error("PERMISSION_DENIED") (line 406). -/
def permDeniedError : JsError :=
  { message := "PERMISSION_DENIED", errorJson := "", selfJson := "", toStr := "" }

/-- The error thrown by new Error("Max retries exceeded") (line 425). -/
def maxRetriesError : JsError :=
  { message := "Max retries exceeded", errorJson := "", selfJson := "", toStr := "" }

/-- Observable outcome of one run of retryWithBackoff: the returned value
or thrown error, the backoff delays awaited (in order), and how many
times the operation was invoked. -/
structure RetryTrace (α : Type) where
  result : Except JsError α
  delays : List Nat
  calls : Nat

/-- The while loop of retryWithBackoff (InteractiveText.tsx lines
376-426).  fn n is the outcome of the operation's invocation number n
(0-based); attempt is the loop counter, delays and calls accumulate the
trace.  The waitTime after the failure that moves the counter from
attempt to attempt+1 is initialDelay * 2^((attempt+1)-1). -/
def retryAux (fn : Nat → Except JsError α) (retries initialDelay : Nat)
    (attempt : Nat) (delays : List Nat) (calls : Nat) : RetryTrace α :=
  if h : attempt < retries then
    match fn attempt with
    | Except.ok a => ⟨Except.ok a, delays, calls + 1⟩
    | Except.error e =>
      let msg := extractMsg e
      if isMissingKey msg then ⟨Except.error e, delays, calls + 1⟩
      else if isPermDenied msg then ⟨Except.error permDeniedError, delays, calls + 1⟩
      else if !(isRateLimit msg || isServerOverload msg) then ⟨Except.error e, delays, calls + 1⟩
      else if retries ≤ attempt + 1 then ⟨Except.error e, delays, calls + 1⟩
      else retryAux fn retries initialDelay (attempt + 1)
        (delays ++ [initialDelay * 2 ^ attempt]) (calls + 1)
  else ⟨Except.error maxRetriesError, delays, calls⟩
termination_by retries - attempt
decreasing_by omega

/-- retryWithBackoff fn with the source defaults retries = 3 and
initialDelay = 2000 passed explicitly. -/
def retryWithBackoff (fn : Nat → Except JsError α) (retries initialDelay : Nat) : RetryTrace α :=
  retryAux fn retries initialDelay 0 [] 0

/-- LoadingState from src/unnamed/part_000. -/
inductive LoadingState
  | idle
  | loading
  | success
  | error
deriving DecidableEq, Repr

/-- ViewMode from src/unnamed/part_000. -/
inductive ViewMode
  | checker
  | menu
  | profile
  | settings
deriving DecidableEq, Repr

/-- QuickRewriteState from src/unnamed/part_000 (styles as strings). -/
structure QuickRewriteState where
  styles : List String
  selectedStyle : Option String
  result : Option String
  isLoading : Bool
deriving DecidableEq, Repr

/-- The App component state read or written by the two coordinated
handlers (src/App.tsx): the single shared activeRequestIdRef cell (line
76, 0 is the sentinel of handleClear/handleStop), the React state cells,
the persistent store, and two observation logs for the error reporting a
continuation may perform (alert messages and console.error count). -/
structure AppModel where
  activeRequestId : Nat
  inputText : String
  grammarResult : Option GrammarAnalysis
  rewriteResult : Option RewriteAnalysis
  quickRewriteState : QuickRewriteState
  loadingState : LoadingState
  currentView : ViewMode
  historyUpdateTrigger : Nat
  store : Store
  alerts : List String
  consoleErrors : Nat
deriving DecidableEq, Repr

/-- t.errors.permissionDenied rendered to the user. -/
def permissionDeniedAlert : String := "permissionDenied"

/-- t.errors.generic rendered to the user. -/
def genericAlert : String := "generic"

/-- JS String.prototype.trim: strip leading and trailing whitespace
(defined over the character list so that it evaluates by reduction). -/
def jsTrim (s : String) : String :=
  String.mk (((s.toList.dropWhile Char.isWhitespace).reverse.dropWhile
    Char.isWhitespace).reverse)

/-- The synchronous prefix of handleCheckGrammar (App.tsx lines 168-178):
guard on empty trimmed input, mint requestId = Date.now() into the shared
cell, set loading and clear previous results. -/
def checkGrammarBegin (now : Nat) (m : AppModel) : AppModel :=
  if jsTrim m.inputText = "" then m
  else
    { m with
      activeRequestId := now
      loadingState := LoadingState.loading
      grammarResult := none
      rewriteResult := none
      quickRewriteState := ⟨[], none, none, false⟩ }

/-- The continuation of handleCheckGrammar after checkGrammar resolves
successfully (App.tsx lines 181-211).  requestId and inputText are the
values captured by the closure when the handler started; result is the
resolved analysis; shuffled is the style order Math.random produced;
newId and now feed saveHistory.  Both stale-token guards of the source
are kept: one before the primary commit, one before the secondary
quick-rewrite update. -/
def checkGrammarOnSuccess (requestId : Nat) (inputText : String) (result : GrammarAnalysis)
    (shuffled : List String) (newId : String) (now : Nat) (m : AppModel) : AppModel :=
  if m.activeRequestId ≠ requestId then m
  else
    let m1 := { m with
      grammarResult := some result
      loadingState := LoadingState.success
      store := saveHistory inputText result newId now m.store
      historyUpdateTrigger := m.historyUpdateTrigger + 1 }
    if m1.activeRequestId ≠ requestId then m1
    else
      { m1 with quickRewriteState :=
        { m1.quickRewriteState with
          styles := shuffled.take 4
          selectedStyle := none
          result := none
          isLoading := false } }

/-- The catch branch of handleCheckGrammar (App.tsx lines 213-225).
errMsg is error?.message || error?.toString() || ''. -/
def checkGrammarOnError (requestId : Nat) (errMsg : String) (m : AppModel) : AppModel :=
  if m.activeRequestId ≠ requestId then m
  else
    let m1 := { m with
      consoleErrors := m.consoleErrors + 1
      loadingState := LoadingState.error }
    if strIncludes errMsg "PERMISSION_DENIED" then
      { m1 with
        alerts := m1.alerts ++ [permissionDeniedAlert]
        currentView := ViewMode.settings }
    else
      { m1 with alerts := m1.alerts ++ [genericAlert] }

/-- The synchronous prefix of handleRewrite (App.tsx lines 228-238). -/
def rewriteBegin (now : Nat) (m : AppModel) : AppModel :=
  if jsTrim m.inputText = "" then m
  else
    { m with
      activeRequestId := now
      loadingState := LoadingState.loading
      rewriteResult := none
      grammarResult := none
      quickRewriteState := ⟨[], none, none, false⟩ }

/-- The continuation of handleRewrite after rewriteText resolves
successfully (App.tsx lines 241-250). -/
def rewriteOnSuccess (requestId : Nat) (result : RewriteAnalysis)
    (newId : String) (now : Nat) (m : AppModel) : AppModel :=
  if m.activeRequestId ≠ requestId then m
  else
    { m with
      rewriteResult := some result
      loadingState := LoadingState.success
      store := saveRewriteHistory result newId now m.store
      historyUpdateTrigger := m.historyUpdateTrigger + 1 }

/-- The catch branch of handleRewrite (App.tsx lines 251-263). -/
def rewriteOnError (requestId : Nat) (errMsg : String) (m : AppModel) : AppModel :=
  if m.activeRequestId ≠ requestId then m
  else
    let m1 := { m with
      consoleErrors := m.consoleErrors + 1
      loadingState := LoadingState.error }
    if strIncludes errMsg "PERMISSION_DENIED" then
      { m1 with
        alerts := m1.alerts ++ [permissionDeniedAlert]
        currentView := ViewMode.settings }
    else
      { m1 with alerts := m1.alerts ++ [genericAlert] }

/-- handleClear (App.tsx lines 296-303): writes the sentinel 0 into the
shared cell so every in-flight continuation no-ops. -/
def handleClear (m : AppModel) : AppModel :=
  { m with
    activeRequestId := 0
    inputText := ""
    grammarResult := none
    rewriteResult := none
    quickRewriteState := ⟨[], none, none, false⟩
    loadingState := LoadingState.idle }

/-- handleStop (App.tsx lines 305-308). -/
def handleStop (m : AppModel) : AppModel :=
  { m with
    activeRequestId := 0
    loadingState := LoadingState.idle }

/-- One cell of the activity calendar grid (src/unnamed/part_002 lines
142-147); the tooltip string is rendering and omitted.  day is the local
calendar day the cell covers, as a day index. -/
structure DayCell where
  day : ℤ
  count : Nat
  isFuture : Bool
deriving DecidableEq, Repr

/-- The activityWeeks computation (src/unnamed/part_002 lines 92-156).
Local calendar dates are modelled as integer day indices: localDayOf
maps an epoch-ms timestamp to the index of its local calendar date (the
toLocalDateString conversion), today is the index of the current date
and todayDow its getDay() value (0 = Sunday, always < 7).  The grid
anchors its last week on the Sunday of the current week and spans 52
weeks of 7 days; each cell counts the history entries whose local date
equals the cell's day, and is flagged future when its day is after
today. -/
def activityWeeks (localDayOf : Nat → ℤ) (history : List HistoryEntry)
    (today : ℤ) (todayDow : Nat) : List (List DayCell) :=
  let currentWeekSunday : ℤ := today - todayDow
  let startDate : ℤ := currentWeekSunday - 51 * 7
  (List.range 52).map fun (w : ℕ) =>
    (List.range 7).map fun (d : ℕ) =>
      let day : ℤ := startDate + 7 * (w : ℤ) + (d : ℤ)
      { day := day
        count := history.countP (fun e => localDayOf e.timestamp == day)
        isFuture := today < day }

/-! Concrete fixtures used by witnesses and counterexamples. -/

/-- An empty store (fresh browser profile). -/
def store0 : Store :=
  { history := [], appState := none, apiKey := none, version := none,
    theme := none, colorScheme := none }

/-- A store holding user data under an outdated schema-version tag. -/
def staleStore : Store :=
  { history := [⟨"id-a", 10, "old text", "old text", 2, 0, false, some EntryType.grammar, none⟩]
    appState := some ⟨"draft", none, none, "blue"⟩
    apiKey := some "user-key"
    version := some "1.0.2"
    theme := some "dark"
    colorScheme := some "blue" }

/-- C5.  On load with a mismatched schema-version tag, getAppState
removes only the ephemeral app-snapshot record, writes the expected
version tag and returns null; the history record and the stored
credential (and the theme records) are unchanged. -/
theorem getAppState_version_mismatch (s : Store) (hmis : s.version ≠ some CURRENT_VERSION) :
    (getAppState s).1 = none ∧
    (getAppState s).2.appState = none ∧
    (getAppState s).2.version = some CURRENT_VERSION ∧
    (getAppState s).2.history = s.history ∧
    (getAppState s).2.apiKey = s.apiKey ∧
    (getAppState s).2.theme = s.theme ∧
    (getAppState s).2.colorScheme = s.colorScheme := by
  simp [getAppState, hmis]

/-- C5 witness: the mismatch theorem applied to a concrete store with an
old version tag, populated history and a stored credential. -/
theorem getAppState_version_mismatch_witness :
    staleStore.version ≠ some CURRENT_VERSION ∧
    ((getAppState staleStore).1 = none ∧
     (getAppState staleStore).2.appState = none ∧
     (getAppState staleStore).2.version = some CURRENT_VERSION ∧
     (getAppState staleStore).2.history = staleStore.history ∧
     (getAppState staleStore).2.apiKey = staleStore.apiKey ∧
     (getAppState staleStore).2.theme = staleStore.theme ∧
     (getAppState staleStore).2.colorScheme = staleStore.colorScheme) :=
  ⟨by decide, getAppState_version_mismatch staleStore (by decide)⟩

/-- C6.  Import of unparseable JSON, or of a parsed value that is neither
an array nor an object with a history array, reports success = false and
leaves the store (in particular the stored history record) unchanged. -/
theorem importHistoryJSON_invalid_input_no_write (s : Store) :
    importHistoryJSON ImportJson.unparseable s
      = ({ success := false, theme := none, colorScheme := none }, s) ∧
    importHistoryJSON ImportJson.malformed s
      = ({ success := false, theme := none, colorScheme := none }, s) := by
  exact ⟨rfl, rfl⟩

/-- A store whose history holds three grammar entries, exactly one of
them perfect (plus one rewrite entry that statistics must ignore). -/
def statsDemoStore : Store :=
  { store0 with history :=
      [⟨"g1", 30, "a", "a", 0, 0, true, some EntryType.grammar, none⟩,
       ⟨"r1", 25, "r", "r", 0, 0, true, some EntryType.rewrite, some "Formal"⟩,
       ⟨"g2", 20, "b", "b", 2, 1, false, some EntryType.grammar, none⟩,
       ⟨"g3", 10, "c", "c", 1, 0, false, none, none⟩] }

/-- C7.  getStats ranges over grammar-category entries only (type grammar
or the legacy missing type): totalChecks is their number, totalErrors the
sum of their errorCount, perfectRuns the number of perfect ones, and
accuracyRate the rounded percentage round(100 * perfectRuns /
totalChecks); every field is zero on an empty grammar history, and three
grammar entries with exactly one perfect yield accuracyRate 33. -/
theorem getStats_spec :
    (∀ s : Store, (getHistory s).filter isGrammarEntry = [] →
        getStats s = ⟨0, 0, 0, 0⟩) ∧
    (∀ s : Store, ((getHistory s).filter isGrammarEntry).length ≠ 0 →
        (getStats s).totalChecks = ((getHistory s).filter isGrammarEntry).length ∧
        (getStats s).totalErrors
          = (((getHistory s).filter isGrammarEntry).map (fun h => h.errorCount)).sum ∧
        (getStats s).perfectRuns
          = (((getHistory s).filter isGrammarEntry).filter (fun h => h.isPerfect)).length ∧
        ((getStats s).accuracyRate : ℤ)
          = round ((100 * ((((getHistory s).filter isGrammarEntry).filter
              (fun h => h.isPerfect)).length : ℚ))
            / (((getHistory s).filter isGrammarEntry).length : ℚ))) ∧
    (getStats statsDemoStore).totalChecks = 3 ∧
    (getStats statsDemoStore).perfectRuns = 1 ∧
    (getStats statsDemoStore).accuracyRate = 33 := by
  refine ⟨?_, ?_, ?_, ?_, ?_⟩
  · intro s hnil
    simp [getStats, hnil]
  · intro s hne
    have hpos : 0 < ((getHistory s).filter isGrammarEntry).length := Nat.pos_of_ne_zero hne
    refine ⟨?_, ?_, ?_, ?_⟩ <;>
      simp only [getStats, if_neg hne, jsRoundPct]
    have hq : ((((getHistory s).filter isGrammarEntry).filter
        (fun h => h.isPerfect)).length : ℚ)
          / (((getHistory s).filter isGrammarEntry).length : ℚ) * 100
        = 100 * ((((getHistory s).filter isGrammarEntry).filter
            (fun h => h.isPerfect)).length : ℚ)
          / (((getHistory s).filter isGrammarEntry).length : ℚ) := by ring
    rw [hq]
    rw [Int.toNat_of_nonneg]
    rw [round_eq]
    apply Int.floor_nonneg.mpr
    positivity
  · decide
  · decide
  · have hstep : (getStats statsDemoStore).accuracyRate = jsRoundPct 1 3 := by
      simp [getStats, getHistory, statsDemoStore, store0, isGrammarEntry]
    rw [hstep]
    have hfloor : round (((1 : ℚ) / (3 : ℚ)) * 100) = 33 := by
      rw [round_eq]
      have hval : ((1 : ℚ) / (3 : ℚ)) * 100 + 1 / 2 = 203 / 6 := by norm_num
      rw [hval, Int.floor_eq_iff]
      constructor <;> norm_num
    unfold jsRoundPct
    rw [show (((1 : ℕ) : ℚ) / ((3 : ℕ) : ℚ)) * 100 = ((1 : ℚ) / (3 : ℚ)) * 100 by norm_num]
    rw [hfloor]
    rfl

/-- C7 witness: the nonempty-history part of the stats theorem applied to
the concrete three-grammar-entry store. -/
theorem getStats_spec_witness :
    ((getHistory statsDemoStore).filter isGrammarEntry).length ≠ 0 ∧
    (getStats statsDemoStore).totalChecks
      = ((getHistory statsDemoStore).filter isGrammarEntry).length :=
  ⟨by decide, (getStats_spec.2.1 statsDemoStore (by decide)).1⟩

/-- A corrected sentence of 61 characters. -/
def longContent : String := String.mk (List.replicate 61 'a')

/-- A grammar analysis whose corrected sentence is longContent. -/
def longAnalysis : GrammarAnalysis := ⟨[], longContent⟩

/-- A dictionary search term of 70 characters. -/
def longTerm : String := String.mk (List.replicate 70 'b')

/-- C9 counterexample: a grammar entry created from a 61-character
corrected sentence stores a 63-character snippet (60 characters plus the
appended "..."), and a dictionary entry created from a 70-character term
stores the term unshortened — both exceed the claimed 60-character
bound. -/
theorem textSnippet_exceeds_sixty :
    ((saveHistory "w" longAnalysis "uuid-g" 1 store0).history.map
        (fun e => e.textSnippet.length)) = [63] ∧
    ¬ 63 ≤ 60 ∧
    ((saveDictionaryHistory longTerm "uuid-d" 2 store0).history.map
        (fun e => e.textSnippet.length)) = [70] := by
  decide

/-- C9 amended: grammar and rewrite entries store the content unchanged
as the snippet when it has at most 60 characters, and otherwise the
first 60 characters followed by an ellipsis, for 63 characters in total
(so snippets are ellipsised but bounded by 63, not 60, characters);
dictionary entries store the search term as the snippet unmodified and
unbounded. -/
theorem textSnippet_bounds :
    (∀ content : String,
      (content.length ≤ 60 → mkSnippet content = content) ∧
      (60 < content.length → (mkSnippet content).length = 63)) ∧
    (∀ (text newId : String) (ga : GrammarAnalysis) (now : Nat) (s : Store),
      ((saveHistory text ga newId now s).history.map (fun e => e.textSnippet)).head?
        = some (mkSnippet (if ga.correctedSentence = "" then text else ga.correctedSentence))) ∧
    (∀ (newId : String) (ra : RewriteAnalysis) (now : Nat) (s : Store),
      ((saveRewriteHistory ra newId now s).history.map (fun e => e.textSnippet)).head?
        = some (mkSnippet ra.rewrittenText)) ∧
    (∀ (term newId : String) (now : Nat) (s : Store),
      ((saveDictionaryHistory term newId now s).history.map (fun e => e.textSnippet)).head?
        = some term) := by
  refine ⟨?_, ?_, ?_, ?_⟩
  · intro content
    constructor
    · intro hle
      unfold mkSnippet
      rw [if_neg (by omega)]
    · intro hgt
      unfold mkSnippet
      rw [if_pos hgt]
      rw [String.length_append]
      have h1 : (String.mk (content.toList.take 60)).length = (content.toList.take 60).length := rfl
      have h2 : (content.toList.take 60).length = min 60 content.toList.length :=
        List.length_take 60 content.toList
      have h3 : content.toList.length = content.length := rfl
      rw [h1, h2, h3]
      have h4 : ("..." : String).length = 3 := rfl
      rw [h4]
      omega
  · intro text newId ga now s
    simp [saveHistory]
  · intro newId ra now s
    simp [saveRewriteHistory]
  · intro term newId now s
    simp [saveDictionaryHistory]

/-- C9 amended witness: the bound theorem applied to the concrete
61-character content, discharging the length hypothesis there. -/
theorem textSnippet_bounds_witness :
    60 < longContent.length ∧ (mkSnippet longContent).length = 63 :=
  ⟨by decide, (textSnippet_bounds.1 longContent).2 (by decide)⟩

/-- An app state with nonempty input and no request in flight. -/
def m0 : AppModel :=
  { activeRequestId := 0
    inputText := "hello world"
    grammarResult := none
    rewriteResult := none
    quickRewriteState := ⟨[], none, none, false⟩
    loadingState := LoadingState.idle
    currentView := ViewMode.checker
    historyUpdateTrigger := 0
    store := store0
    alerts := []
    consoleErrors := 0 }

/-- C4.  The token is requestId = Date.now(): two user actions begun in
the same millisecond (both see Date.now() = 1000) mint the identical
token 1000, so the second begin does not mint a token strictly greater
than the previously minted one. -/
theorem same_millisecond_tokens_not_distinct :
    (checkGrammarBegin 1000 m0).activeRequestId = 1000 ∧
    (checkGrammarBegin 1000 (checkGrammarBegin 1000 m0)).activeRequestId = 1000 ∧
    ¬ (checkGrammarBegin 1000 m0).activeRequestId
        < (checkGrammarBegin 1000 (checkGrammarBegin 1000 m0)).activeRequestId := by
  decide

/-- The grammar analysis with which the first (superseded) check
resolves. -/
def resA1 : GrammarAnalysis := ⟨[], "corrected by A1"⟩

/-- The rewrite analysis with which the second request resolves. -/
def rA2 : RewriteAnalysis := ⟨"hello world", "rewritten by A2", "Formal"⟩

/-- C1 counterexample: two grammar checks A1 and A2 both begin at
Date.now() = 1000 (A2 before A1's call resolves), so they mint the same
token; A1's success continuation then passes the stale-token guard and
commits its outcome after A2 has started — it mutates visible state and
writes history, so, as stated, it is not only A2's outcome that can be
committed. -/
theorem stale_continuation_commits_on_token_collision :
    (checkGrammarOnSuccess 1000 "hello world" resA1 [] "uuid-1" 1000
        (checkGrammarBegin 1000 (checkGrammarBegin 1000 m0))).grammarResult = some resA1 ∧
    (checkGrammarOnSuccess 1000 "hello world" resA1 [] "uuid-1" 1000
        (checkGrammarBegin 1000 (checkGrammarBegin 1000 m0))).store.history.length = 1 ∧
    (checkGrammarBegin 1000 (checkGrammarBegin 1000 m0)).store.history.length = 0 := by
  decide

/-- C1 amended: provided A1's token is no longer the value of the shared
active-token cell (which beginning A2 guarantees exactly when A2 mints a
different token, e.g. in a different millisecond), A1's continuation
performs no state mutation, no history write and no error reporting, in
both its success and its failure branch; and beginning an action over
nonempty input installs its own token as the active one. -/
theorem stale_continuation_is_inert (m : AppModel) (t : Nat)
    (capturedInput newId errMsg : String) (result : GrammarAnalysis)
    (shuffled : List String) (rresult : RewriteAnalysis) (now : Nat)
    (hstale : m.activeRequestId ≠ t) :
    checkGrammarOnSuccess t capturedInput result shuffled newId now m = m ∧
    checkGrammarOnError t errMsg m = m ∧
    rewriteOnSuccess t rresult newId now m = m ∧
    rewriteOnError t errMsg m = m ∧
    (∀ t2 : Nat, jsTrim m.inputText ≠ "" →
      (checkGrammarBegin t2 m).activeRequestId = t2 ∧
      (rewriteBegin t2 m).activeRequestId = t2) := by
  refine ⟨?_, ?_, ?_, ?_, ?_⟩
  · simp [checkGrammarOnSuccess, hstale]
  · simp [checkGrammarOnError, hstale]
  · simp [rewriteOnSuccess, hstale]
  · simp [rewriteOnError, hstale]
  · intro t2 hin
    constructor <;> simp [checkGrammarBegin, rewriteBegin, hin]

/-- C1 amended witness: a continuation holding token 1000 finds 2000 in
the shared cell and leaves the state untouched. -/
theorem stale_continuation_is_inert_witness :
    ({ m0 with activeRequestId := 2000 } : AppModel).activeRequestId ≠ 1000 ∧
    checkGrammarOnSuccess 1000 "hello world" resA1 [] "uuid-1" 1001
        { m0 with activeRequestId := 2000 } = { m0 with activeRequestId := 2000 } :=
  ⟨by decide,
   (stale_continuation_is_inert { m0 with activeRequestId := 2000 } 1000
      "hello world" "uuid-1" "msg" resA1 [] rA2 1001 (by decide)).1⟩

/-- C10 counterexample: a rewrite begun in the same millisecond as the
in-flight grammar check reuses the token 1000, so it does not make that
token inactive: the grammar completion still commits its result and
history entry, and the rewrite completion then commits as well — two
overlapping requests across the two classes both commit. -/
theorem cross_class_collision_commits_both :
    (checkGrammarOnSuccess 1000 "hello world" resA1 [] "uuid-1" 1001
        (rewriteBegin 1000 (checkGrammarBegin 1000 m0))).grammarResult = some resA1 ∧
    (rewriteOnSuccess 1000 rA2 "uuid-2" 1002
        (checkGrammarOnSuccess 1000 "hello world" resA1 [] "uuid-1" 1001
          (rewriteBegin 1000 (checkGrammarBegin 1000 m0)))).rewriteResult = some rA2 ∧
    (rewriteOnSuccess 1000 rA2 "uuid-2" 1002
        (checkGrammarOnSuccess 1000 "hello world" resA1 [] "uuid-1" 1001
          (rewriteBegin 1000 (checkGrammarBegin 1000 m0)))).store.history.length = 2 := by
  decide

/-- C10 amended: both action classes share the one active-token cell
(activeRequestIdRef), so beginning an action of either class over
nonempty input with a token different from the in-flight request's token
(e.g. begun in a different millisecond) makes that token inactive, and
the superseded completion commits nothing in either branch — among
overlapping requests with distinct tokens, only the latest can commit. -/
theorem cross_class_supersession (m : AppModel) (tOld tNew : Nat)
    (capturedInput newId errMsg : String) (result : GrammarAnalysis)
    (shuffled : List String) (rresult : RewriteAnalysis) (now : Nat)
    (hin : jsTrim m.inputText ≠ "") (hne : tNew ≠ tOld) :
    (rewriteBegin tNew m).activeRequestId = tNew ∧
    checkGrammarOnSuccess tOld capturedInput result shuffled newId now (rewriteBegin tNew m)
      = rewriteBegin tNew m ∧
    checkGrammarOnError tOld errMsg (rewriteBegin tNew m) = rewriteBegin tNew m ∧
    (checkGrammarBegin tNew m).activeRequestId = tNew ∧
    rewriteOnSuccess tOld rresult newId now (checkGrammarBegin tNew m)
      = checkGrammarBegin tNew m ∧
    rewriteOnError tOld errMsg (checkGrammarBegin tNew m) = checkGrammarBegin tNew m := by
  have hR : (rewriteBegin tNew m).activeRequestId = tNew := by
    simp [rewriteBegin, hin]
  have hG : (checkGrammarBegin tNew m).activeRequestId = tNew := by
    simp [checkGrammarBegin, hin]
  have hRne : (rewriteBegin tNew m).activeRequestId ≠ tOld := by rw [hR]; exact hne
  have hGne : (checkGrammarBegin tNew m).activeRequestId ≠ tOld := by rw [hG]; exact hne
  refine ⟨hR, ?_, ?_, hG, ?_, ?_⟩
  · simp [checkGrammarOnSuccess, hRne]
  · simp [checkGrammarOnError, hRne]
  · simp [rewriteOnSuccess, hGne]
  · simp [rewriteOnError, hGne]

/-- C10 amended witness: a rewrite begun at millisecond 2000 supersedes
the grammar check begun at millisecond 1000, whose completion is then
inert. -/
theorem cross_class_supersession_witness :
    jsTrim (checkGrammarBegin 1000 m0).inputText ≠ "" ∧ (2000 : Nat) ≠ 1000 ∧
    checkGrammarOnSuccess 1000 "hello world" resA1 [] "uuid-1" 2001
        (rewriteBegin 2000 (checkGrammarBegin 1000 m0))
      = rewriteBegin 2000 (checkGrammarBegin 1000 m0) :=
  ⟨by decide, by decide,
   (cross_class_supersession (checkGrammarBegin 1000 m0) 1000 2000
      "hello world" "uuid-1" "msg" resA1 [] rA2 2001 (by decide) (by decide)).2.1⟩

/-- Unpacking of the retryable classification into the three boolean
facts the loop branches on. -/
lemma isRetryableErr_elim (e : JsError) (h : isRetryableErr e = true) :
    isMissingKey (extractMsg e) = false ∧
    isPermDenied (extractMsg e) = false ∧
    (isRateLimit (extractMsg e) || isServerOverload (extractMsg e)) = true := by
  simp only [isRetryableErr, Bool.and_eq_true, Bool.not_eq_true'] at h
  exact ⟨h.1.1, h.1.2, h.2⟩

/-- The loop invokes the operation at most retries - attempt more
times. -/
lemma retryAux_calls_le (fn : Nat → Except JsError α) (retries initialDelay : Nat) :
    ∀ (fuel attempt : Nat) (delays : List Nat) (calls : Nat), retries - attempt ≤ fuel →
      (retryAux fn retries initialDelay attempt delays calls).calls
        ≤ calls + (retries - attempt) := by
  intro fuel
  induction fuel with
  | zero =>
    intro attempt delays calls hf
    have hge : ¬ attempt < retries := by omega
    rw [retryAux]
    simp [hge]
  | succ n ih =>
    intro attempt delays calls hf
    rw [retryAux]
    split
    case isTrue hlt =>
      split
      case _ a _ => simp; omega
      case _ e _ =>
        simp only
        split
        · simp; omega
        · split
          · simp; omega
          · split
            · simp; omega
            · split
              · simp; omega
              · have hrec := ih (attempt + 1) (delays ++ [initialDelay * 2 ^ attempt])
                  (calls + 1) (by omega)
                omega
    case isFalse hlt =>
      simp

/-- C2.  retryWithBackoff with the source defaults (3 attempts, 2000 ms
base delay): the operation runs at most 3 times; an immediate success
returns at once with no delay; when failures are classified rate-limited
or service-unavailable, a success on the second attempt was preceded by
a 2000 ms wait and a success on the third by 2000 ms then 4000 ms waits,
the succeeding attempt's result being returned; and three such failures
exhaust the attempts and surface the last error after the same two
waits. -/
theorem retryWithBackoff_spec (fn : Nat → Except JsError α) :
    (retryWithBackoff fn 3 2000).calls ≤ 3 ∧
    (∀ a, fn 0 = Except.ok a →
        retryWithBackoff fn 3 2000 = ⟨Except.ok a, [], 1⟩) ∧
    (∀ e0 a, fn 0 = Except.error e0 → isRetryableErr e0 = true → fn 1 = Except.ok a →
        retryWithBackoff fn 3 2000 = ⟨Except.ok a, [2000], 2⟩) ∧
    (∀ e0 e1 a, fn 0 = Except.error e0 → fn 1 = Except.error e1 → fn 2 = Except.ok a →
        isRetryableErr e0 = true → isRetryableErr e1 = true →
        retryWithBackoff fn 3 2000 = ⟨Except.ok a, [2000, 4000], 3⟩) ∧
    (∀ e0 e1 e2, fn 0 = Except.error e0 → fn 1 = Except.error e1 → fn 2 = Except.error e2 →
        isRetryableErr e0 = true → isRetryableErr e1 = true → isRetryableErr e2 = true →
        retryWithBackoff fn 3 2000 = ⟨Except.error e2, [2000, 4000], 3⟩) := by
  refine ⟨?_, ?_, ?_, ?_, ?_⟩
  · have h := retryAux_calls_le fn 3 2000 3 0 [] 0 (by omega)
    simpa [retryWithBackoff] using h
  · intro a h0
    unfold retryWithBackoff
    rw [retryAux]
    norm_num [h0]
  · intro e0 a h0 hr0 h1
    obtain ⟨hm0, hp0, hrl0⟩ := isRetryableErr_elim e0 hr0
    unfold retryWithBackoff
    rw [retryAux]
    norm_num [h0, hm0, hp0, hrl0]
    rw [retryAux]
    norm_num [h1]
  · intro e0 e1 a h0 h1 h2 hr0 hr1
    obtain ⟨hm0, hp0, hrl0⟩ := isRetryableErr_elim e0 hr0
    obtain ⟨hm1, hp1, hrl1⟩ := isRetryableErr_elim e1 hr1
    unfold retryWithBackoff
    rw [retryAux]
    norm_num [h0, hm0, hp0, hrl0]
    rw [retryAux]
    norm_num [h1, hm1, hp1, hrl1]
    rw [retryAux]
    norm_num [h2]
  · intro e0 e1 e2 h0 h1 h2 hr0 hr1 hr2
    obtain ⟨hm0, hp0, hrl0⟩ := isRetryableErr_elim e0 hr0
    obtain ⟨hm1, hp1, hrl1⟩ := isRetryableErr_elim e1 hr1
    obtain ⟨hm2, hp2, hrl2⟩ := isRetryableErr_elim e2 hr2
    unfold retryWithBackoff
    rw [retryAux]
    norm_num [h0, hm0, hp0, hrl0]
    rw [retryAux]
    norm_num [h1, hm1, hp1, hrl1]
    rw [retryAux]
    norm_num [h2, hm2, hp2, hrl2]

/-- A 429 rate-limit failure as the remote service raises it. -/
def rateLimitError : JsError :=
  { message := "", errorJson := "", selfJson := "", toStr := "Error: 429 Too Many Requests" }

/-- An operation that fails with the 429 error twice and succeeds on its
third invocation. -/
def twoFailuresThenOk : Nat → Except JsError Nat :=
  fun n => if n < 2 then Except.error rateLimitError else Except.ok 7

/-- C2 witness: the retry theorem applied to the concrete
fails-twice-then-succeeds operation, discharging the classification
hypotheses there: the success value is returned after waits of 2000 ms
and 4000 ms and exactly 3 invocations. -/
theorem retryWithBackoff_spec_witness :
    retryWithBackoff twoFailuresThenOk 3 2000
      = ⟨Except.ok 7, [2000, 4000], 3⟩ :=
  (retryWithBackoff_spec twoFailuresThenOk).2.2.2.1 rateLimitError rateLimitError 7
    rfl rfl rfl (by decide) (by decide)

/-- The stable sort never changes membership. -/
lemma mem_sortByTimestampDesc {x : HistoryEntry} {l : List HistoryEntry} :
    x ∈ sortByTimestampDesc l ↔ x ∈ l :=
  List.mem_insertionSort tsGE

/-- The stable sort output is sorted by timestamp descending. -/
lemma sortByTimestampDesc_sorted (l : List HistoryEntry) :
    List.Sorted tsGE (sortByTimestampDesc l) :=
  List.sorted_insertionSort tsGE l

/-- Sorting an already timestamp-descending list is the identity (JS
sort is stable, so equal timestamps keep their order). -/
lemma sortByTimestampDesc_eq_of_sorted {l : List HistoryEntry}
    (h : List.Sorted tsGE l) : sortByTimestampDesc l = l :=
  h.insertionSort_eq

/-- C3.  The import merge is idempotent: repeating any import leaves the
stored history exactly as after the first import (no duplicates, no
reordering), and importing the store's own export bundle is a no-op on a
store whose history is sorted by timestamp descending (as every history
the store itself writes is). -/
theorem importHistoryJSON_idempotent :
    (∀ (j : ImportJson) (s : Store),
        (importHistoryJSON j (importHistoryJSON j s).2).2 = (importHistoryJSON j s).2) ∧
    (∀ s : Store, List.Sorted tsGE s.history →
        (importHistoryJSON (parseExport (exportHistoryJSON s)) s).2 = s) := by
  have hmerge : ∀ (inp : List HistoryEntry) (th c th2 c2 : Option String) (s : Store),
      (mergeImport inp th2 c2 (mergeImport inp th c s).2).2 = (mergeImport inp th c s).2 := by
    intro inp th c th2 c2 s
    unfold mergeImport getHistory
    simp only
    congr 1
    have hnil : inp.filter (fun x => !(x.id = "") &&
        !(((sortByTimestampDesc
            (inp.filter (fun x => !(x.id = "") && !((s.history.map (fun y => y.id)).contains x.id))
              ++ s.history)).map (fun y => y.id)).contains x.id)) = [] := by
      rw [List.filter_eq_nil_iff]
      intro x hx
      by_cases hid : x.id = ""
      · simp [hid]
      · have hin : x.id ∈ ((sortByTimestampDesc
            (inp.filter (fun x => !(x.id = "")
                && !((s.history.map (fun y => y.id)).contains x.id)) ++ s.history)).map
              (fun y => y.id)) := by
          by_cases hc : x.id ∈ s.history.map (fun y => y.id)
          · obtain ⟨y, hy, hyid⟩ := List.mem_map.mp hc
            exact List.mem_map.mpr
              ⟨y, mem_sortByTimestampDesc.mpr (List.mem_append.mpr (Or.inr hy)), hyid⟩
          · have hcontains : (s.history.map (fun y => y.id)).contains x.id = false := by
              simp only [List.contains, Bool.eq_false_iff]
              intro helem
              exact hc (List.elem_iff.mp helem)
            have hxnew : x ∈ inp.filter (fun x => !(x.id = "")
                && !((s.history.map (fun y => y.id)).contains x.id)) := by
              refine List.mem_filter.mpr ⟨hx, ?_⟩
              rw [hcontains]
              simp [hid]
            exact List.mem_map.mpr
              ⟨x, mem_sortByTimestampDesc.mpr (List.mem_append.mpr (Or.inl hxnew)), rfl⟩
        simp only [Bool.and_eq_true, Bool.not_eq_true', decide_eq_false_iff_not, not_and,
          Bool.not_eq_false]
        intro _
        simp only [List.contains, List.elem_iff]
        exact hin
    rw [hnil, List.nil_append]
    exact sortByTimestampDesc_eq_of_sorted (sortByTimestampDesc_sorted _)
  constructor
  · intro j s
    cases j with
    | unparseable => rfl
    | malformed => rfl
    | arr entries => exact hmerge entries none none none none s
    | bundle history theme colorScheme => exact hmerge history theme colorScheme theme colorScheme s
  · intro s hsort
    unfold importHistoryJSON parseExport exportHistoryJSON mergeImport getHistory
    simp only
    have hnil : s.history.filter (fun x => !(x.id = "")
        && !((s.history.map (fun y => y.id)).contains x.id)) = [] := by
      rw [List.filter_eq_nil_iff]
      intro x hx
      have hin : x.id ∈ s.history.map (fun y => y.id) := List.mem_map.mpr ⟨x, hx, rfl⟩
      simp only [Bool.and_eq_true, Bool.not_eq_true', decide_eq_false_iff_not, not_and,
        Bool.not_eq_false]
      intro _
      simp only [List.contains, List.elem_iff]
      exact hin
    rw [hnil, List.nil_append, sortByTimestampDesc_eq_of_sorted hsort]

/-- A store whose two-entry history is sorted by timestamp descending. -/
def sortedStore : Store :=
  { store0 with history :=
      [⟨"id-new", 40, "newer", "newer", 0, 0, true, some EntryType.grammar, none⟩,
       ⟨"id-old", 15, "older", "older", 1, 0, false, some EntryType.rewrite, some "Casual"⟩] }

/-- C3 witness: round-tripping the concrete sorted store through export
and import leaves it unchanged, the sortedness hypothesis discharged by
computation. -/
theorem importHistoryJSON_idempotent_witness :
    List.Sorted tsGE sortedStore.history ∧
    (importHistoryJSON (parseExport (exportHistoryJSON sortedStore)) sortedStore).2
      = sortedStore :=
  ⟨by simp [sortedStore, store0, List.Sorted, tsGE],
   importHistoryJSON_idempotent.2 sortedStore
     (by simp [sortedStore, store0, List.Sorted, tsGE])⟩

/-- C8.  The activity grid spans exactly 52 weeks of 7 days; each cell
counts the history entries whose local calendar day equals the cell's
day; every cell strictly after today is flagged future and (since
history entries are dated at creation time, never in the future) counts
0; the last week is the current week Sunday..Sunday+6 and contains
today; and a history consisting of one entry dated today has exactly one
cell with nonzero count, that count being 1. -/
theorem activityWeeks_spec (localDayOf : Nat → ℤ) (history : List HistoryEntry)
    (today : ℤ) (todayDow : Nat) (hdow : todayDow < 7)
    (hpast : ∀ e ∈ history, localDayOf e.timestamp ≤ today) :
    (activityWeeks localDayOf history today todayDow).length = 52 ∧
    (∀ week ∈ activityWeeks localDayOf history today todayDow, week.length = 7) ∧
    (∀ week ∈ activityWeeks localDayOf history today todayDow, ∀ cell ∈ week,
        cell.count = history.countP (fun e => localDayOf e.timestamp == cell.day)) ∧
    (∀ week ∈ activityWeeks localDayOf history today todayDow, ∀ cell ∈ week,
        today < cell.day → cell.isFuture = true ∧ cell.count = 0) ∧
    ((activityWeeks localDayOf history today todayDow).getLast?.map
        (fun week => week.map (fun c => c.day))
      = some ((List.range 7).map (fun (d : ℕ) => today - (todayDow : ℤ) + (d : ℤ)))) ∧
    (today ∈ (List.range 7).map (fun (d : ℕ) => today - (todayDow : ℤ) + (d : ℤ))) ∧
    (∀ e : HistoryEntry, history = [e] → localDayOf e.timestamp = today →
      ((activityWeeks localDayOf history today todayDow).map
          (fun week => week.countP (fun c => c.count ≠ 0))).sum = 1 ∧
      ((activityWeeks localDayOf history today todayDow).map
          (fun week => week.countP (fun c => c.count = 1))).sum = 1) := by
  refine ⟨?_, ?_, ?_, ?_, ?_, ?_, ?_⟩
  · simp [activityWeeks]
  · intro week hw
    simp only [activityWeeks, List.mem_map] at hw
    obtain ⟨w, _, rfl⟩ := hw
    simp
  · intro week hw cell hc
    simp only [activityWeeks, List.mem_map] at hw
    obtain ⟨w, _, rfl⟩ := hw
    simp only [List.mem_map] at hc
    obtain ⟨d, _, rfl⟩ := hc
    rfl
  · intro week hw cell hc hfut
    simp only [activityWeeks, List.mem_map] at hw
    obtain ⟨w, _, rfl⟩ := hw
    simp only [List.mem_map] at hc
    obtain ⟨d, _, rfl⟩ := hc
    refine ⟨by simpa using hfut, ?_⟩
    simp only [List.countP_eq_zero]
    intro a ha
    have hle := hpast a ha
    simp only [beq_iff_eq]
    intro heq
    simp only at hfut
    omega
  · rw [activityWeeks]
    rw [List.getLast?_map]
    rw [show (List.range 52).getLast? = some 51 from by decide]
    simp only [Option.map_some', Option.some.injEq, List.map_map]
    apply List.map_congr_left
    intro d hd
    simp only [Function.comp]
    push_cast
    ring
  · refine List.mem_map.mpr ⟨todayDow, List.mem_range.mpr hdow, ?_⟩
    omega
  · intro e hhist hloc
    subst hhist
    have hcount : ∀ day : ℤ,
        [e].countP (fun e2 => localDayOf e2.timestamp == day)
          = if today = day then 1 else 0 := by
      intro day
      simp [List.countP_cons, hloc]
    have main : ∀ pq : Nat → Bool, pq 0 = false → pq 1 = true →
        ((activityWeeks localDayOf [e] today todayDow).map
            (fun week => week.countP (fun c => pq c.count))).sum = 1 := by
      intro pq hq0 hq1
      rw [activityWeeks]
      rw [List.map_map]
      have inner : ∀ w ∈ List.range 52,
          ((fun week => week.countP (fun c => pq c.count)) ∘ fun (w : ℕ) =>
              (List.range 7).map (fun (d : ℕ) =>
                ({ day := today - (todayDow : ℤ) - 51 * 7 + 7 * (w : ℤ) + (d : ℤ)
                   count := [e].countP (fun e2 =>
                     localDayOf e2.timestamp
                       == today - (todayDow : ℤ) - 51 * 7 + 7 * (w : ℤ) + (d : ℤ))
                   isFuture :=
                     decide (today
                       < today - (todayDow : ℤ) - 51 * 7 + 7 * (w : ℤ) + (d : ℤ)) } : DayCell)))
            w = if w = 51 then 1 else 0 := by
        intro w hw
        have hwlt : w < 52 := List.mem_range.mp hw
        simp only [Function.comp_apply]
        rw [List.countP_map]
        rw [show List.range 7 = [0, 1, 2, 3, 4, 5, 6] from rfl]
        simp only [List.countP_cons, List.countP_nil, Function.comp_apply]
        simp only [hloc]
        have hterm : ∀ D : ℤ,
            (if pq (0 + if (today == D) = true then 1 else 0) = true then 1 else 0)
              = if today = D then 1 else 0 := by
          intro D
          by_cases hD : today = D
          · simp [hD, hq1]
          · simp [hD, hq0]
        simp only [hterm]
        split_ifs <;> omega
      rw [List.map_congr_left inner]
      decide
    constructor
    · exact main (fun n => decide (n ≠ 0)) (by decide) (by decide)
    · exact main (fun n => decide (n = 1)) (by decide) (by decide)

/-- A history entry whose local calendar day (under the identity day
mapping) is day 5. -/
def todayEntry : HistoryEntry :=
  ⟨"w1", 5, "today", "today", 0, 0, true, some EntryType.grammar, none⟩

/-- C8 witness: the grid theorem applied with the identity day mapping,
today = day 5 falling on a Wednesday (getDay = 3), and a single history
entry dated today, discharging both hypotheses by computation. -/
theorem activityWeeks_spec_witness :
    ((3 : ℕ) < 7) ∧
    (activityWeeks (fun ts => (ts : ℤ)) [todayEntry] 5 3).length = 52 :=
  ⟨by decide,
   (activityWeeks_spec (fun ts => (ts : ℤ)) [todayEntry] 5 3 (by decide) (by decide)).1⟩
